import Mathlib

/-!
# Verification of the OBD-II logger core (adapter discovery, connection
# negotiation, sample formatting, acquisition loop)

Shallow embedding of the Python sources `OBD-v2.py` … `OBD-v5.py`.
Machine reals are modelled as exact rationals (the numeric values exercised
here are exactly representable and far from rounding midpoints); Python's
`str.upper` is modelled as the per-character ASCII uppercase map.
-/

/-! ## MAC address extraction (`extract_mac_from_hwid`, OBD-v2/v3/v4/v5)

The Python code runs `re.search(r'&([0-9A-F]{12})', hwid.upper())` and, on a
match, joins the twelve captured digits into six colon-separated pairs.
`macTokenAt` is the regex pattern attempted at one position of the uppercased
character list; `searchMacToken` is `re.search`, i.e. the leftmost position at
which the pattern matches. -/

def isHexDigitUpper (c : Char) : Bool :=
  (decide ('0' ≤ c) && decide (c ≤ '9')) || (decide ('A' ≤ c) && decide (c ≤ 'F'))

def macTokenAt (l : List Char) : Option (List Char) :=
  match l with
  | [] => none
  | c :: rest =>
      if c = '&' && (rest.take 12).length = 12 && (rest.take 12).all isHexDigitUpper then
        some (rest.take 12)
      else none

def searchMacToken : List Char → Option (List Char)
  | [] => none
  | c :: rest =>
      match macTokenAt (c :: rest) with
      | some t => some t
      | none => searchMacToken rest

def formatMac (t : List Char) : String :=
  String.intercalate ":" ((List.range 6).map fun i => String.mk ((t.drop (2 * i)).take 2))

def pyUpper (s : String) : String := String.mk (s.data.map Char.toUpper)

def extract_mac_from_hwid (hwid : String) : String :=
  match searchMacToken (pyUpper hwid).data with
  | some t => formatMac t
  | none => "00:00:00:00:00:00"

/-- Spec-side predicate: the `&`-plus-12-hex-digits pattern matches at
position `i` of the character list. -/
def hasMacTokenAt (l : List Char) (i : Nat) : Bool :=
  (macTokenAt (l.drop i)).isSome

/-! ## Sample formatting (`get_formatted_value`)

`PyNum` mirrors Python's int/float split (`isinstance(value, float)` decides
the rendering); magnitudes are exact rationals.  `formatOneDecimal` renders
`f"{value:.1f}"` and `formatZeroDecimal` renders `f"{value:.0f}"` for the
values arising here (no rounding midpoints, so the half-even detail of
Python's float formatting is immaterial). -/

inductive PyNum where
  | int (n : ℤ)
  | float (q : ℚ)
deriving DecidableEq

def PyNum.toRat : PyNum → ℚ
  | .int n => (n : ℚ)
  | .float q => q

inductive OBDCommand where
  | coolantTemp
  | rpm
  | throttlePos
  | engineLoad
  | speed
  | fuelLevel
  | intakeTemp
  | ambiantAirTemp
  | other
deriving DecidableEq

/-- A python-obd response: `value = none` models a null response
(`response.is_null()` true / `response.value is None`). -/
structure OBDResponse where
  value : Option PyNum
  unit : String
  command : OBDCommand
deriving DecidableEq

def formatOneDecimal (q : ℚ) : String :=
  let n : ℤ := round (q * 10)
  (if n < 0 then "-" else "") ++ toString (n.natAbs / 10) ++ "." ++ toString (n.natAbs % 10)

def formatZeroDecimal (q : ℚ) : String :=
  toString (round q : ℤ)

/-- Approximation of Python `str` on a numeric value; only reachable for
commands outside the queried parameter set in `get_formatted_value_v5`. -/
def pyStr : PyNum → String
  | .int n => toString n
  | .float q => formatOneDecimal q

/-- `get_formatted_value(response, unit)` of OBD-v2.py (identical in
OBD-v3.py): returns Python `None` (here `none`) on a null response, converts
keyed off the target unit symbol when the module's `UNITS` configuration is
`"imperial"`, then renders floats with one decimal.  Python's
`value * 9/5 + 32` on an int uses true division, hence always yields a float;
`0.621371` is modelled by the exact decimal rational. -/
def get_formatted_value_v2 (response : OBDResponse) (unit : String) (units : String) :
    Option String :=
  match response.value with
  | none => none
  | some v =>
      let converted : PyNum × String :=
        if unit = "°C" && units = "imperial" then
          (PyNum.float (v.toRat * 9 / 5 + 32), "°F")
        else if unit = "km/h" && units = "imperial" then
          (PyNum.float (v.toRat * (621371 / 1000000)), "mph")
        else (v, unit)
      match converted.1 with
      | .float q => some (formatOneDecimal q ++ " " ++ converted.2)
      | .int n => some (toString n ++ " " ++ converted.2)

/-- `get_formatted_value(response)` of OBD-v4.py: `"N/A"` on a null (or
absent) response, otherwise the magnitude followed by `response.unit`,
with one decimal for floats. -/
def get_formatted_value_v4 (response : Option OBDResponse) : String :=
  match response with
  | none => "N/A"
  | some r =>
      match r.value with
      | none => "N/A"
      | some (.float q) => formatOneDecimal q ++ " " ++ r.unit
      | some (.int n) => toString n ++ " " ++ r.unit

/-- `get_formatted_value(response)` of OBD-v5.py: `"N/A"` on a null (or
absent) response, otherwise formatting keyed off `response.command`; no
unit-system conversion is performed (the module's `UNITS` global is unused
by this function). -/
def get_formatted_value_v5 (response : Option OBDResponse) : String :=
  match response with
  | none => "N/A"
  | some r =>
      match r.value with
      | none => "N/A"
      | some v =>
          if r.command = .coolantTemp || r.command = .intakeTemp ||
              r.command = .ambiantAirTemp then
            formatZeroDecimal v.toRat ++ " °C"
          else if r.command = .rpm then
            formatOneDecimal v.toRat
          else if r.command = .throttlePos || r.command = .engineLoad ||
              r.command = .fuelLevel then
            formatOneDecimal v.toRat ++ " %"
          else if r.command = .speed then
            formatOneDecimal v.toRat ++ " km/h"
          else pyStr v

/-! ## Connection negotiation (`connect_with_retry`, OBD-v2.py lines 178-232,
identical in OBD-v3.py lines 159-211)

The environment abstracts the serial/OBD capabilities: `settleOk p` is
whether the raw-serial settle pre-check on port `p` succeeds, and
`attemptOutcome p n` is what `OBD(...)` followed by `is_connected()` does on
the `n`-th (1-based) attempt on `p`.  `tryAttempts` is the inner
`for attempt in range(1, retries + 1)` loop; `tryPort` is one iteration of
the outer candidate loop; `connectPorts` is the outer loop itself;
`connect_with_retry` adds the empty-scan early return.  The trace records,
in program order, every settle pre-check, OBD open attempt, session close,
and `time.sleep(delay)` executed. -/

inductive AttemptOutcome where
  | connected
  | notConnected
  | transportError
deriving DecidableEq

structure NegotiatorEnv where
  settleOk : String → Bool
  attemptOutcome : String → Nat → AttemptOutcome

inductive NegEvent where
  | settleCheck (port : String)
  | openAttempt (port : String) (attempt : Nat)
  | closeSession (port : String) (attempt : Nat)
  | wait (seconds : Nat)
deriving DecidableEq

inductive ConnectResult where
  | success (port : String)
  | noPairedPortsFound
  | noResponsiveAdapter
deriving DecidableEq

def tryAttempts (env : NegotiatorEnv) (port : String) (delay : Nat) :
    Nat → Nat → List NegEvent × Bool
  | 0, _ => ([], false)
  | r + 1, n =>
      match env.attemptOutcome port n with
      | .connected => ([.openAttempt port n], true)
      | .notConnected =>
          let res := tryAttempts env port delay r (n + 1)
          (.openAttempt port n :: .closeSession port n :: .wait delay :: res.1, res.2)
      | .transportError =>
          let res := tryAttempts env port delay r (n + 1)
          (.openAttempt port n :: .wait delay :: res.1, res.2)

def tryPort (env : NegotiatorEnv) (port : String) (retries delay : Nat) :
    List NegEvent × Bool :=
  if env.settleOk port then
    let res := tryAttempts env port delay retries 1
    (.settleCheck port :: res.1, res.2)
  else
    ([.settleCheck port], false)

def connectPorts (env : NegotiatorEnv) (retries delay : Nat) :
    List String → List NegEvent × ConnectResult
  | [] => ([], .noResponsiveAdapter)
  | p :: rest =>
      let res := tryPort env p retries delay
      if res.2 then
        (res.1, .success p)
      else
        let restRes := connectPorts env retries delay rest
        (res.1 ++ restRes.1, restRes.2)

def connect_with_retry (env : NegotiatorEnv) (ports : List String) (retries delay : Nat) :
    List NegEvent × ConnectResult :=
  if ports.isEmpty then ([], .noPairedPortsFound)
  else connectPorts env retries delay ports

/-- The full event block produced by `count` consecutive failed (opened but
not connected) attempts starting at attempt number `start`: each open is
followed by a close and a `delay`-second sleep. -/
def failBlock (port : String) (delay : Nat) : Nat → Nat → List NegEvent
  | _, 0 => []
  | start, c + 1 =>
      .openAttempt port start :: .closeSession port start :: .wait delay ::
        failBlock port delay (start + 1) c

def isOpenAttempt : NegEvent → Bool
  | .openAttempt _ _ => true
  | _ => false

def countOpenAttempts (evs : List NegEvent) : Nat :=
  (evs.filter isOpenAttempt).length

/-! ## Acquisition loop (`monitor_data`, OBD-v5.py lines 416-451, OBD-v4.py
lines 325-362)

`running t` is the `self.running` flag as observed at the top of tick `t`;
`isConn t` is what `self.connection.is_connected()` reports on tick `t`.
The loop emits one sample per tick while running and connected; when the
connection check fails it stops with `ConnectionLost` and emits nothing for
that tick.  Queries are modelled as non-throwing (the `except` branch of the
source is not exercised by any claim).  `fuel` bounds the number of
inspected ticks so the model is total; `stillRunning` marks fuel exhaustion
with the loop still live.  The returned list holds the tick indices at which
a sample was emitted, in emission order. -/

inductive LoopOutcome where
  | connectionLost
  | stoppedByUser
  | stillRunning
deriving DecidableEq

def monitor_data (running isConn : Nat → Bool) : Nat → Nat → List Nat × LoopOutcome
  | 0, _ => ([], .stillRunning)
  | fuel + 1, t =>
      if running t then
        if isConn t then
          let res := monitor_data running isConn fuel (t + 1)
          (t :: res.1, res.2)
        else ([], .connectionLost)
      else ([], .stoppedByUser)

/-! ## Port scanning in OBD-v5.py

OBD-v5.py binds `extract_mac_from_hwid` twice: the first definition (line 73)
returns the all-zero sentinel when no token is found, the second (line 491)
returns `"Unknown"`.  After the module body has executed, the name resolves
to the second definition, and `list_paired_bluetooth_ports` (line 89) looks
the name up at call time, so a call made after module load uses the
`"Unknown"` fallback.  `strContains hay needle` models Python's
`needle in hay` substring test. -/

structure PortInfo where
  device : String
  description : String
  hwid : String
deriving DecidableEq

def matchesFront : List Char → List Char → Bool
  | [], _ => true
  | _ :: _, [] => false
  | a :: as, b :: bs => a = b && matchesFront as bs

def containsRun (needle : List Char) : List Char → Bool
  | [] => needle.isEmpty
  | c :: rest => matchesFront needle (c :: rest) || containsRun needle rest

def strContains (hay needle : String) : Bool :=
  containsRun needle.data hay.data

/-- The second `extract_mac_from_hwid` of OBD-v5.py (line 491): same regex
search, but the no-match fallback is `"Unknown"` instead of the sentinel. -/
def extract_mac_from_hwid_v5_second (hwid : String) : String :=
  match searchMacToken (pyUpper hwid).data with
  | some t => formatMac t
  | none => "Unknown"

/-- The binding of `extract_mac_from_hwid` in OBD-v5.py's module namespace
once the whole module body has executed: the second definition wins. -/
def extract_mac_from_hwid_v5_final : String → String :=
  extract_mac_from_hwid_v5_second

/-- `list_paired_bluetooth_ports` of OBD-v5.py (lines 89-105), with
`extract_mac_from_hwid` resolved at call time to the module's final
binding. -/
def list_paired_bluetooth_ports_v5 (ports : List PortInfo) : List (String × String) :=
  ports.filterMap fun p =>
    if strContains p.description "Bluetooth" then
      let mac := extract_mac_from_hwid_v5_final p.hwid
      if mac ≠ "00:00:00:00:00:00" then some (p.device, mac) else none
    else none

/-! ## Supporting lemmas: the regex search -/

theorem searchMacToken_eq_none (l : List Char)
    (h : ∀ i, macTokenAt (l.drop i) = none) : searchMacToken l = none := by
  induction l with
  | nil => rfl
  | cons c rest ih =>
      have h0 : macTokenAt (c :: rest) = none := h 0
      simp only [searchMacToken, h0]
      exact ih fun i => h (i + 1)

theorem searchMacToken_eq_none_of_no_token (l : List Char)
    (h : ∀ i < l.length, hasMacTokenAt l i = false) : searchMacToken l = none := by
  apply searchMacToken_eq_none
  intro i
  by_cases hi : i < l.length
  · cases hm : macTokenAt (l.drop i) with
    | none => rfl
    | some t =>
        have hfalse := h i hi
        simp [hasMacTokenAt, hm] at hfalse
  · rw [List.drop_eq_nil_of_le (Nat.le_of_not_lt hi)]
    rfl

theorem searchMacToken_eq_some_of_leftmost (l t : List Char) :
    ∀ i, macTokenAt (l.drop i) = some t → (∀ j < i, macTokenAt (l.drop j) = none) →
      searchMacToken l = some t := by
  induction l with
  | nil =>
      intro i hi _
      rw [List.drop_nil] at hi
      simp [macTokenAt] at hi
  | cons c rest ih =>
      intro i hi hmin
      cases i with
      | zero =>
          have hi0 : macTokenAt (c :: rest) = some t := hi
          simp only [searchMacToken, hi0]
      | succ i =>
          have h0 : macTokenAt (c :: rest) = none := hmin 0 (Nat.succ_pos i)
          simp only [searchMacToken, h0]
          exact ih i hi fun j hj => hmin (j + 1) (Nat.succ_lt_succ hj)

theorem macTokenAt_eq_some (l t : List Char) (h : macTokenAt l = some t) :
    t = (l.drop 1).take 12 := by
  cases l with
  | nil => simp [macTokenAt] at h
  | cons c rest =>
      simp only [macTokenAt] at h
      split at h
      · exact (Option.some_inj.mp h).symm
      · exact absurd h (by simp)

/-! ## C7, C8, C10: the MAC extractor -/

/-- C7: for every hardware-id string whose uppercased character sequence has
no position at which a `&`-prefixed contiguous run of 12 hexadecimal digits
starts, `extract_mac_from_hwid` returns the sentinel `"00:00:00:00:00:00"`.
Totality on arbitrary input strings is inherent: `extract_mac_from_hwid` is
a total Lean function. -/
theorem extract_mac_no_token_yields_sentinel (hwid : String)
    (h : ∀ i < (pyUpper hwid).data.length, hasMacTokenAt (pyUpper hwid).data i = false) :
    extract_mac_from_hwid hwid = "00:00:00:00:00:00" := by
  unfold extract_mac_from_hwid
  rw [searchMacToken_eq_none_of_no_token _ h]

/-- Witness for C7 at a concrete hardware id with no MAC token. -/
theorem extract_mac_no_token_witness :
    extract_mac_from_hwid "USB VID:PID=1A86:7523 SER=6" = "00:00:00:00:00:00" :=
  extract_mac_no_token_yields_sentinel _ (by decide)

/-- C8: if the uppercased hardware id has a `&`-prefixed 12-hex-digit run
starting at position `i` and none earlier, `extract_mac_from_hwid` returns
exactly those 12 digits grouped into six colon-separated pairs in
encountered order (no byte reordering). -/
theorem extract_mac_token_grouped (hwid : String) (i : Nat)
    (hi : hasMacTokenAt (pyUpper hwid).data i = true)
    (hmin : ∀ j < i, hasMacTokenAt (pyUpper hwid).data j = false) :
    extract_mac_from_hwid hwid =
      formatMac (((pyUpper hwid).data.drop (i + 1)).take 12) := by
  simp only [hasMacTokenAt] at hi
  obtain ⟨t, ht⟩ := Option.isSome_iff_exists.mp hi
  have hmin2 : ∀ j < i, macTokenAt ((pyUpper hwid).data.drop j) = none := by
    intro j hj
    have hfalse := hmin j hj
    cases hm : macTokenAt ((pyUpper hwid).data.drop j) with
    | none => rfl
    | some u => simp [hasMacTokenAt, hm] at hfalse
  have hsearch := searchMacToken_eq_some_of_leftmost (pyUpper hwid).data t i ht hmin2
  have hshape := macTokenAt_eq_some _ t ht
  unfold extract_mac_from_hwid
  rw [hsearch, hshape, List.drop_drop]

/-- Witness for C8: the spec's worked example, with lowercase input to
exercise the case normalization. -/
theorem extract_mac_token_grouped_witness :
    extract_mac_from_hwid "bthenum dev_&001da5084912" = "00:1D:A5:08:49:12" := by
  have h := extract_mac_token_grouped "bthenum dev_&001da5084912" 12 (by decide) (by decide)
  rw [h]
  decide

/-- C10: when the uppercased hardware id has two (or more) `&`-prefixed
12-hex-digit runs, at positions `i` and `i2` with `i < i2`, the extractor
returns the grouping of the leftmost run (the regex search picks the first
match). -/
theorem extract_mac_leftmost_of_two (hwid : String) (i i2 : Nat)
    (hlt : i < i2)
    (hi : hasMacTokenAt (pyUpper hwid).data i = true)
    (hi2 : hasMacTokenAt (pyUpper hwid).data i2 = true)
    (hmin : ∀ j < i, hasMacTokenAt (pyUpper hwid).data j = false) :
    extract_mac_from_hwid hwid =
      formatMac (((pyUpper hwid).data.drop (i + 1)).take 12) :=
  extract_mac_token_grouped hwid i hi hmin

/-- Witness for C10: two distinct runs; the first one wins. -/
theorem extract_mac_leftmost_of_two_witness :
    extract_mac_from_hwid "&aaaaaaaaaaaa&bbbbbbbbbbbb" = "AA:AA:AA:AA:AA:AA" := by
  have h := extract_mac_leftmost_of_two "&aaaaaaaaaaaa&bbbbbbbbbbbb" 0 13
    (by decide) (by decide) (by decide) (by decide)
  rw [h]
  decide

/-! ## C1: null readings -/

/-- C1 counterexample: the `get_formatted_value` of OBD-v2.py (and
OBD-v3.py) returns Python `None` — not the string `"N/A"` — on a null
reading, so the claim "format returns the literal string `N/A`" fails on
that cited variant. -/
theorem v2_format_null_returns_none :
    get_formatted_value_v2 ⟨none, "°C", .coolantTemp⟩ "°C" "metric" = none ∧
    (none : Option String) ≠ some "N/A" := by
  refine ⟨rfl, ?_⟩
  intro h
  exact Option.noConfusion h

/-- C1 amended: on a null reading (absent response or null value) the
OBD-v4.py and OBD-v5.py formatters return the literal `"N/A"` regardless of
the reading's unit, command and the configured unit system; the OBD-v2.py /
OBD-v3.py formatter instead returns the Python `None` marker, again
regardless of unit and unit system. -/
theorem format_null_reading (response : Option OBDResponse)
    (h : response = none ∨ ∃ r, response = some r ∧ r.value = none)
    (r2 : OBDResponse) (h2 : r2.value = none) (unit units : String) :
    get_formatted_value_v5 response = "N/A" ∧
    get_formatted_value_v4 response = "N/A" ∧
    get_formatted_value_v2 r2 unit units = none := by
  refine ⟨?_, ?_, ?_⟩
  · rcases h with rfl | ⟨r, rfl, hr⟩
    · rfl
    · simp only [get_formatted_value_v5, hr]
  · rcases h with rfl | ⟨r, rfl, hr⟩
    · rfl
    · simp only [get_formatted_value_v4, hr]
  · simp only [get_formatted_value_v2, h2]

/-- Witness for the amended C1 at concrete null readings. -/
theorem format_null_reading_witness :
    get_formatted_value_v5 (some ⟨none, "°C", .coolantTemp⟩) = "N/A" ∧
    get_formatted_value_v4 (some ⟨none, "°C", .coolantTemp⟩) = "N/A" ∧
    get_formatted_value_v2 ⟨none, "km/h", .speed⟩ "km/h" "imperial" = none :=
  format_null_reading (some ⟨none, "°C", .coolantTemp⟩)
    (Or.inr ⟨⟨none, "°C", .coolantTemp⟩, rfl, rfl⟩)
    ⟨none, "km/h", .speed⟩ rfl "km/h" "imperial"

/-! ## C6: 93 °C under the imperial unit system -/

/-- C6 counterexample: the cited OBD-v5.py `get_formatted_value` keys its
formatting off the command identity and performs no unit-system conversion
at all (the module's `UNITS` global is unused by it), so a coolant reading
of magnitude 93.0 renders as `"93 °C"` — not `"199.4 °F"` — whatever unit
system is configured. -/
theorem v5_format_93C_no_conversion :
    get_formatted_value_v5 (some ⟨some (.float 93), "°C", .coolantTemp⟩) = "93 °C" ∧
    "93 °C" ≠ "199.4 °F" := by
  constructor
  · show formatZeroDecimal (PyNum.float 93).toRat ++ " °C" = "93 °C"
    have h : round ((PyNum.float 93).toRat) = (93 : ℤ) := by
      norm_num [PyNum.toRat]
    simp only [formatZeroDecimal, h]
    decide
  · decide

/-- C6 amended: in the OBD-v2.py / OBD-v3.py formatter (the variant that
honors the configured unit system, keyed off the unit symbol), a float
reading of magnitude 93.0 with unit `"°C"` under `"imperial"` is converted
with F = C·9/5 + 32 before the one-decimal rounding and renders exactly
`"199.4 °F"`; the OBD-v5.py formatter ignores the unit system and renders
`"93 °C"`. -/
theorem v2_format_93C_imperial :
    get_formatted_value_v2 ⟨some (.float 93), "°C", .coolantTemp⟩ "°C" "imperial" =
      some "199.4 °F" ∧
    get_formatted_value_v5 (some ⟨some (.float 93), "°C", .coolantTemp⟩) = "93 °C" := by
  constructor
  · show some (formatOneDecimal ((PyNum.float 93).toRat * 9 / 5 + 32) ++ " " ++ "°F") =
      some "199.4 °F"
    have h : round (((PyNum.float 93).toRat * 9 / 5 + 32) * 10) = (1994 : ℤ) := by
      have e : ((PyNum.float 93).toRat * 9 / 5 + 32) * 10 = (1994 : ℚ) := by
        norm_num [PyNum.toRat]
      rw [e]
      norm_num
    simp only [formatOneDecimal, h]
    decide
  · show formatZeroDecimal (PyNum.float 93).toRat ++ " °C" = "93 °C"
    have h : round ((PyNum.float 93).toRat) = (93 : ℤ) := by
      norm_num [PyNum.toRat]
    simp only [formatZeroDecimal, h]
    decide

/-! ## Supporting lemmas: the negotiation loops -/

theorem countOpenAttempts_nil : countOpenAttempts [] = 0 := rfl

theorem countOpenAttempts_cons (e : NegEvent) (l : List NegEvent) :
    countOpenAttempts (e :: l) =
      (if isOpenAttempt e then 1 else 0) + countOpenAttempts l := by
  by_cases h : isOpenAttempt e = true <;>
    simp [countOpenAttempts, List.filter_cons, h, Nat.add_comm]

theorem countOpenAttempts_append (l1 l2 : List NegEvent) :
    countOpenAttempts (l1 ++ l2) = countOpenAttempts l1 + countOpenAttempts l2 := by
  simp [countOpenAttempts, List.filter_append]

theorem countOpenAttempts_failBlock (port : String) (delay : Nat) :
    ∀ c start, countOpenAttempts (failBlock port delay start c) = c := by
  intro c
  induction c with
  | zero => intro start; rfl
  | succ c ih =>
      intro start
      simp only [failBlock, countOpenAttempts_cons, ih (start + 1), isOpenAttempt]
      simp [Nat.add_comm]

theorem tryAttempts_all_notConnected (env : NegotiatorEnv) (port : String) (delay : Nat)
    (h : ∀ m, env.attemptOutcome port m = .notConnected) :
    ∀ r n, tryAttempts env port delay r n = (failBlock port delay n r, false) := by
  intro r
  induction r with
  | zero => intro n; rfl
  | succ r ih =>
      intro n
      simp only [tryAttempts, h n, ih (n + 1), failBlock]

theorem tryAttempts_success (env : NegotiatorEnv) (port : String) (delay : Nat) :
    ∀ j r n, (∀ m < j, env.attemptOutcome port (n + m) = .notConnected) →
      env.attemptOutcome port (n + j) = .connected → j < r →
      tryAttempts env port delay r n =
        (failBlock port delay n j ++ [.openAttempt port (n + j)], true) := by
  intro j
  induction j with
  | zero =>
      intro r n _ hc hr
      cases r with
      | zero => exact absurd hr (by omega)
      | succ r =>
          have hc0 : env.attemptOutcome port n = .connected := by
            rwa [Nat.add_zero] at hc
          simp only [tryAttempts, hc0, failBlock, List.nil_append, Nat.add_zero]
  | succ j ih =>
      intro r n hm hc hr
      cases r with
      | zero => exact absurd hr (by omega)
      | succ r =>
          have h0 : env.attemptOutcome port n = .notConnected := by
            have := hm 0 (Nat.succ_pos j)
            rwa [Nat.add_zero] at this
          have hrec := ih r (n + 1)
            (fun m hm2 => by
              have := hm (m + 1) (Nat.succ_lt_succ hm2)
              rwa [show n + (m + 1) = n + 1 + m by omega] at this)
            (by rwa [show n + 1 + j = n + (j + 1) by omega])
            (by omega)
          simp only [tryAttempts, h0, hrec, failBlock]
          rw [show n + (j + 1) = n + 1 + j by omega]
          simp

/-! ## C2: exhausting the per-port budget on an unresponsive port -/

/-- C2: on a candidate port whose settle pre-check succeeds but whose OBD
session reports not-connected on every attempt, negotiation performs exactly
`retries` (= maxAttemptsPerPort) open attempts, closes the session after
each failed attempt and then sleeps `delay` (= interAttemptDelay) seconds —
this is the `failBlock` trace shape — and then moves on to the next
candidate: the overall trace is this port's block followed by whatever the
remaining candidates produce, with the overall result that of the remaining
candidates. -/
theorem negotiation_exhausts_budget_on_unresponsive_port
    (env : NegotiatorEnv) (p : String) (rest : List String) (retries delay : Nat)
    (hsettle : env.settleOk p = true)
    (hfail : ∀ m, env.attemptOutcome p m = .notConnected) :
    tryPort env p retries delay = (.settleCheck p :: failBlock p delay 1 retries, false) ∧
    countOpenAttempts (tryPort env p retries delay).1 = retries ∧
    connectPorts env retries delay (p :: rest) =
      ((tryPort env p retries delay).1 ++ (connectPorts env retries delay rest).1,
        (connectPorts env retries delay rest).2) := by
  have hmain : tryPort env p retries delay =
      (.settleCheck p :: failBlock p delay 1 retries, false) := by
    simp only [tryPort, hsettle, if_true,
      tryAttempts_all_notConnected env p delay hfail retries 1]
  refine ⟨hmain, ?_, ?_⟩
  · rw [hmain]
    simp only [countOpenAttempts_cons, countOpenAttempts_failBlock, isOpenAttempt]
    simp
  · simp only [connectPorts, hmain]
    simp

/-- Witness for C2: a two-candidate scan where the first port never
connects; five attempts with a 2-second delay. -/
theorem negotiation_exhausts_budget_witness :
    tryPort
        { settleOk := fun _ => true, attemptOutcome := fun _ _ => .notConnected }
        "COM4" 5 2 =
      (.settleCheck "COM4" :: failBlock "COM4" 2 1 5, false) ∧
    countOpenAttempts
        (tryPort
          { settleOk := fun _ => true, attemptOutcome := fun _ _ => .notConnected }
          "COM4" 5 2).1 = 5 ∧
    connectPorts
        { settleOk := fun _ => true, attemptOutcome := fun _ _ => .notConnected }
        5 2 ["COM4", "COM7"] =
      ((tryPort
          { settleOk := fun _ => true, attemptOutcome := fun _ _ => .notConnected }
          "COM4" 5 2).1 ++
        (connectPorts
          { settleOk := fun _ => true, attemptOutcome := fun _ _ => .notConnected }
          5 2 ["COM7"]).1,
        (connectPorts
          { settleOk := fun _ => true, attemptOutcome := fun _ _ => .notConnected }
          5 2 ["COM7"]).2) :=
  negotiation_exhausts_budget_on_unresponsive_port _ "COM4" ["COM7"] 5 2 rfl (fun _ => rfl)

/-! ## C3: immediate return on the first connected attempt -/

/-- C3: if the settle pre-check succeeds, attempts `1 .. j` report
not-connected and attempt `j + 1` (i.e. attempt `k` with `k = j + 1`, within
the budget) reports connected, then negotiation on that port stops right
there: the trace is the `j` failed-attempt blocks followed by the single
successful open, so exactly `j + 1` opens happen — none of attempts
`j + 2 .. retries` — and the outer loop returns `success p` without touching
any later candidate (the overall trace is exactly this port's trace). -/
theorem negotiation_returns_immediately_on_success
    (env : NegotiatorEnv) (p : String) (rest : List String) (retries delay j : Nat)
    (hbudget : j + 1 ≤ retries)
    (hsettle : env.settleOk p = true)
    (hbefore : ∀ m, 1 ≤ m → m ≤ j → env.attemptOutcome p m = .notConnected)
    (hsucc : env.attemptOutcome p (j + 1) = .connected) :
    tryPort env p retries delay =
      (.settleCheck p :: (failBlock p delay 1 j ++ [.openAttempt p (j + 1)]), true) ∧
    countOpenAttempts (tryPort env p retries delay).1 = j + 1 ∧
    connectPorts env retries delay (p :: rest) =
      ((tryPort env p retries delay).1, .success p) := by
  have hattempts := tryAttempts_success env p delay j retries 1
    (fun m hm => hbefore (1 + m) (by omega) (by omega))
    (by rwa [show 1 + j = j + 1 by omega]) (by omega)
  have hmain : tryPort env p retries delay =
      (.settleCheck p :: (failBlock p delay 1 j ++ [.openAttempt p (j + 1)]), true) := by
    simp only [tryPort, hsettle, if_true, hattempts]
    rw [show 1 + j = j + 1 by omega]
  refine ⟨hmain, ?_, ?_⟩
  · rw [hmain]
    simp only [countOpenAttempts_cons, countOpenAttempts_append,
      countOpenAttempts_failBlock, countOpenAttempts_nil, isOpenAttempt]
    simp
  · simp only [connectPorts, hmain]
    simp

/-- Witness for C3: success on attempt 2 of 5 (j = 1): one failed block,
then the successful open; the second candidate is never touched. -/
theorem negotiation_immediate_success_witness :
    tryPort
        { settleOk := fun _ => true,
          attemptOutcome := fun _ n => if n = 2 then .connected else .notConnected }
        "COM4" 5 2 =
      (.settleCheck "COM4" ::
        (failBlock "COM4" 2 1 1 ++ [.openAttempt "COM4" 2]), true) ∧
    countOpenAttempts
        (tryPort
          { settleOk := fun _ => true,
            attemptOutcome := fun _ n => if n = 2 then .connected else .notConnected }
          "COM4" 5 2).1 = 2 ∧
    connectPorts
        { settleOk := fun _ => true,
          attemptOutcome := fun _ n => if n = 2 then .connected else .notConnected }
        5 2 ["COM4", "COM9"] =
      ((tryPort
          { settleOk := fun _ => true,
            attemptOutcome := fun _ n => if n = 2 then .connected else .notConnected }
          "COM4" 5 2).1, .success "COM4") :=
  negotiation_returns_immediately_on_success _ "COM4" ["COM9"] 5 2 1 (by omega) rfl
    (fun m h1 h2 => by
      have hm : m = 1 := by omega
      subst hm
      rfl)
    rfl

/-! ## C4: empty candidate list -/

/-- C4: with an empty candidate list, `connect_with_retry` returns the
terminal `noPairedPortsFound` failure with an empty event trace — in
particular zero settle pre-checks and zero OBD open attempts are
performed. -/
theorem connect_empty_candidates_noPairedPortsFound
    (env : NegotiatorEnv) (retries delay : Nat) :
    connect_with_retry env [] retries delay = ([], .noPairedPortsFound) ∧
    countOpenAttempts (connect_with_retry env [] retries delay).1 = 0 := by
  exact ⟨rfl, rfl⟩

/-! ## C5: the acquisition loop on a session lost before tick 4 -/

theorem monitor_data_succ (running isConn : Nat → Bool) (fuel t : Nat) :
    monitor_data running isConn (fuel + 1) t =
      if running t then
        if isConn t then
          (t :: (monitor_data running isConn fuel (t + 1)).1,
            (monitor_data running isConn fuel (t + 1)).2)
        else ([], .connectionLost)
      else ([], .stoppedByUser) := rfl

/-- C5: if the user never stops monitoring, the connection check holds on
ticks 0, 1, 2 and fails from tick 3 on, and at least 4 ticks of fuel are
available, the loop emits exactly the 3 samples of ticks 0, 1 and 2 and
terminates with `connectionLost`, emitting nothing on the failing tick. -/
theorem monitor_three_samples_then_connectionLost
    (running isConn : Nat → Bool) (fuel : Nat)
    (hrun : ∀ t, running t = true)
    (hconn : ∀ t, isConn t = decide (t < 3))
    (hfuel : 4 ≤ fuel) :
    monitor_data running isConn fuel 0 = ([0, 1, 2], .connectionLost) ∧
    (monitor_data running isConn fuel 0).1.length = 3 := by
  obtain ⟨m, rfl⟩ : ∃ m, fuel = m + 4 := ⟨fuel - 4, by omega⟩
  have h0 : monitor_data running isConn (m + 4) 0 =
      (0 :: (monitor_data running isConn (m + 3) 1).1,
        (monitor_data running isConn (m + 3) 1).2) := by
    rw [show m + 4 = (m + 3) + 1 by omega, monitor_data_succ, hrun 0, hconn 0]
    simp
  have h1 : monitor_data running isConn (m + 3) 1 =
      (1 :: (monitor_data running isConn (m + 2) 2).1,
        (monitor_data running isConn (m + 2) 2).2) := by
    rw [show m + 3 = (m + 2) + 1 by omega, monitor_data_succ, hrun 1, hconn 1]
    simp
  have h2 : monitor_data running isConn (m + 2) 2 =
      (2 :: (monitor_data running isConn (m + 1) 3).1,
        (monitor_data running isConn (m + 1) 3).2) := by
    rw [show m + 2 = (m + 1) + 1 by omega, monitor_data_succ, hrun 2, hconn 2]
    simp
  have h3 : monitor_data running isConn (m + 1) 3 = ([], .connectionLost) := by
    rw [monitor_data_succ, hrun 3, hconn 3]
    simp
  have e : monitor_data running isConn (m + 4) 0 = ([0, 1, 2], .connectionLost) := by
    rw [h0, h1, h2, h3]
  exact ⟨e, by rw [e]; rfl⟩

/-- Witness for C5 at a concrete session trace with fuel 10. -/
theorem monitor_three_samples_witness :
    monitor_data (fun _ => true) (fun t => decide (t < 3)) 10 0 =
      ([0, 1, 2], .connectionLost) ∧
    (monitor_data (fun _ => true) (fun t => decide (t < 3)) 10 0).1.length = 3 :=
  monitor_three_samples_then_connectionLost _ _ 10 (fun _ => rfl) (fun _ => rfl) (by omega)

/-! ## C9: the duplicated extractor in OBD-v5.py -/

/-- C9 counterexample: under the module's final (second) binding of
`extract_mac_from_hwid`, a Bluetooth-described port whose hardware id
contains the all-zero token `&000000000000` extracts to the sentinel and is
still rejected by `list_paired_bluetooth_ports`, so the scan does not admit
every Bluetooth-described port. -/
theorem v5_scan_rejects_allzero_token_port :
    strContains "Bluetooth Device" "Bluetooth" = true ∧
    extract_mac_from_hwid_v5_final "X&000000000000" = "00:00:00:00:00:00" ∧
    list_paired_bluetooth_ports_v5 [⟨"COM9", "Bluetooth Device", "X&000000000000"⟩] = [] := by
  refine ⟨by decide, by decide, by decide⟩

/-- C9 amended: OBD-v5.py defines `extract_mac_from_hwid` twice and the
second definition — whose no-match fallback is `"Unknown"` — is the binding
in effect once the module body has executed (`list_paired_bluetooth_ports`
resolves the name at call time).  Because `"Unknown"` differs from the
sentinel, every Bluetooth-described port whose hardware id has no MAC token
is admitted as a candidate with mac `"Unknown"`; the only Bluetooth-described
ports still rejected are those whose extracted MAC is the all-zero
sentinel. -/
theorem v5_final_binding_admits_unknown_mac_ports
    (ports : List PortInfo) (p : PortInfo)
    (hp : p ∈ ports)
    (hdesc : strContains p.description "Bluetooth" = true)
    (hnotok : ∀ i < (pyUpper p.hwid).data.length,
      hasMacTokenAt (pyUpper p.hwid).data i = false) :
    extract_mac_from_hwid_v5_final p.hwid = "Unknown" ∧
    (p.device, "Unknown") ∈ list_paired_bluetooth_ports_v5 ports := by
  have hex : extract_mac_from_hwid_v5_final p.hwid = "Unknown" := by
    unfold extract_mac_from_hwid_v5_final extract_mac_from_hwid_v5_second
    rw [searchMacToken_eq_none_of_no_token _ hnotok]
  refine ⟨hex, ?_⟩
  apply List.mem_filterMap.mpr
  refine ⟨p, hp, ?_⟩
  simp only [hdesc, hex, if_true]
  rw [if_pos (by decide)]

/-- Witness for the amended C9: a Bluetooth serial port whose hardware id
has no extractable MAC is admitted with mac `"Unknown"`. -/
theorem v5_final_binding_admits_witness :
    extract_mac_from_hwid_v5_final "BTHENUM SOMETHING" = "Unknown" ∧
    ("COM5", "Unknown") ∈
      list_paired_bluetooth_ports_v5
        [⟨"COM5", "Standard Serial over Bluetooth link", "BTHENUM SOMETHING"⟩] :=
  v5_final_binding_admits_unknown_mac_ports
    [⟨"COM5", "Standard Serial over Bluetooth link", "BTHENUM SOMETHING"⟩]
    ⟨"COM5", "Standard Serial over Bluetooth link", "BTHENUM SOMETHING"⟩
    (by decide) (by decide) (by decide)
